import Mathlib

/-!
# Verification of the dailypapers-ai pipeline

A shallow embedding of the dailypapers-ai repository (a linear
podcast-generation pipeline: paper selection, script generation, audio
generation, video composition, upload) together with theorems checking the
natural-language specification against the code.

Bytes are modelled as `Nat` (values `< 256`), byte strings as `List Nat`,
text as `String` or `List Char`.  External effects (the arXiv client, the
Gemini API, the filesystem, ffmpeg) are modelled as explicit oracle
parameters; each embedded function is a pure function of its inputs and
those oracles.
-/

namespace DailyPapers

/-! ## Python string helpers

`str.strip()` with no argument removes leading and trailing whitespace;
for the ASCII range that is space, tab, newline, carriage return,
vertical tab and form feed. -/

def pyIsSpace (c : Char) : Bool :=
  c = ' ' || c = '\t' || c = '\n' || c = '\r' || c = '\x0b' || c = '\x0c'

/-- Left strip: drop leading whitespace, as Python `str.lstrip()`. -/
def stripLeft (l : List Char) : List Char :=
  l.dropWhile pyIsSpace

/-- Right strip: drop trailing whitespace, as Python `str.rstrip()`. -/
def stripRight (l : List Char) : List Char :=
  (l.reverse.dropWhile pyIsSpace).reverse

/-- Python `str.strip()` on a character list. -/
def pyStripList (l : List Char) : List Char :=
  stripLeft (stripRight l)

/-- Python `str.strip()` on a `String`. -/
def pyStrip (s : String) : String :=
  ⟨pyStripList s.data⟩

/-- The first element surviving `dropWhile p` fails `p`. -/
theorem dropWhile_head_false (p : Char → Bool) :
    ∀ (l : List Char) (c : Char) (cs : List Char),
      l.dropWhile p = c :: cs → p c = false := by
  intro l
  induction l with
  | nil => intro c cs h; simp [List.dropWhile] at h
  | cons a as ih =>
    intro c cs h
    by_cases ha : p a
    · rw [List.dropWhile_cons_of_pos ha] at h
      exact ih c cs h
    · rw [List.dropWhile_cons_of_neg ha] at h
      cases h
      simpa using ha

/-- `dropWhile` result is empty iff every element satisfies the predicate. -/
theorem stripLeft_eq_nil_iff (l : List Char) :
    stripLeft l = [] ↔ ∀ c ∈ l, pyIsSpace c = true := by
  simp [stripLeft]

/-- The fully stripped list is empty exactly when the input is all whitespace. -/
theorem pyStripList_eq_nil_iff (l : List Char) :
    pyStripList l = [] ↔ ∀ c ∈ l, pyIsSpace c = true := by
  unfold pyStripList stripRight
  constructor
  · intro h c hc
    rcases List.takeWhile_append_dropWhile (p := pyIsSpace) (l := l.reverse) ▸
      (List.mem_reverse.mpr hc) with hmem
    rw [List.mem_append] at hmem
    rcases hmem with htake | hdrop
    · exact List.mem_takeWhile_imp htake
    · rw [stripLeft_eq_nil_iff] at h
      exact h c (List.mem_reverse.mpr hdrop)
  · intro h
    have hdrop : l.reverse.dropWhile pyIsSpace = [] := by
      rw [List.dropWhile_eq_nil_iff]
      intro c hc
      exact h c (List.mem_reverse.mp hc)
    simp [hdrop, stripLeft]

/-! ## Script generator (`src/script_generator.py`)

`generate_script_from_paper` sends the PDF to the model and post-processes
`response.text`: `None` raises, a script that strips to the empty string
raises, otherwise the stripped script is returned.  The model response is
the oracle input `responseText`. -/

def generate_script_from_paper (responseText : Option String) : Except String String :=
  match responseText with
  | none => Except.error "Gemini model returned None for response text"
  | some raw =>
    let podcast_script := pyStrip raw
    if podcast_script = "" then
      Except.error "Gemini model returned an empty script"
    else
      Except.ok podcast_script

/-! ## Audio stream accumulation (`src/audio_generator.py`, `_process_audio_stream`)

Each response chunk is inspected: when the chunk has candidates, content
and parts (`has_parts`), the first part's `inline_data` is read; if it is
present with non-empty `data`, the payload is appended to the accumulator
and, while no MIME type has been retained yet, its `mime_type` is
retained; otherwise non-empty `text` is merely logged. -/

structure InlineData where
  data : List Nat
  mime_type : Option String
deriving DecidableEq

structure Chunk where
  /-- `chunk.candidates and chunk.candidates[0].content and chunk.candidates[0].content.parts` -/
  has_parts : Bool
  /-- `chunk.candidates[0].content.parts[0].inline_data` (meaningful when `has_parts`) -/
  inline_data : Option InlineData
  /-- `chunk.text` (`none` models both `None` and the empty string) -/
  text : Option String
deriving DecidableEq

/-- One iteration of the accumulation loop body. -/
def processChunk (acc : List Nat × Option String) (c : Chunk) : List Nat × Option String :=
  if c.has_parts then
    match c.inline_data with
    | some d =>
      if d.data ≠ [] then
        (acc.1 ++ d.data, match acc.2 with
          | none => d.mime_type
          | some m => some m)
      else
        acc
    | none => acc
  else
    acc

/-- `_process_audio_stream`: fold the loop body over the ordered chunk
sequence, starting from the empty accumulator and no retained MIME type. -/
def process_audio_stream (chunks : List Chunk) : List Nat × Option String :=
  chunks.foldl processChunk ([], none)

/-- A chunk contributes audio exactly when it has parts and a non-empty
inline payload (`if inline_data and inline_data.data:`). -/
def carriesData (c : Chunk) : Bool :=
  c.has_parts &&
    (match c.inline_data with
     | some d => !d.data.isEmpty
     | none => false)

/-- The inline payload of a chunk (empty when absent). -/
def chunkPayload (c : Chunk) : List Nat :=
  match c.inline_data with
  | some d => d.data
  | none => []

/-- The inline MIME type of a chunk. -/
def chunkMime (c : Chunk) : Option String :=
  match c.inline_data with
  | some d => d.mime_type
  | none => none

/-- Concatenation, in stream order, of the payloads of the data-carrying chunks. -/
def streamBuffer (chunks : List Chunk) : List Nat :=
  ((chunks.filter carriesData).map chunkPayload).flatten

/-- The first `some` MIME type among the data-carrying chunks, in stream order. -/
def firstSomeMime (chunks : List Chunk) : Option String :=
  (chunks.filter carriesData).findSome? chunkMime

/-- The MIME type carried by the first data-carrying chunk (what claim C6
asserts is retained; `none` also when that chunk carries no MIME type). -/
def firstChunkMime (chunks : List Chunk) : Option String :=
  (chunks.find? carriesData).bind chunkMime

/-- Generalized fold characterization of `_process_audio_stream`. -/
theorem process_foldl_spec (chunks : List Chunk) (buf : List Nat) (m : Option String) :
    chunks.foldl processChunk (buf, m) =
      (buf ++ streamBuffer chunks,
       match m with
       | some x => some x
       | none => firstSomeMime chunks) := by
  induction chunks generalizing buf m with
  | nil => cases m <;> simp [streamBuffer, firstSomeMime]
  | cons c cs ih =>
    by_cases hp : c.has_parts
    · cases hd : c.inline_data with
      | none =>
        have hc : carriesData c = false := by simp [carriesData, hd]
        simp [List.foldl_cons, processChunk, hp, hd, ih, streamBuffer, firstSomeMime, hc]
      | some d =>
        by_cases hdat : d.data = []
        · have hc : carriesData c = false := by simp [carriesData, hd, hdat]
          simp [List.foldl_cons, processChunk, hp, hd, hdat, ih, streamBuffer,
            firstSomeMime, hc]
        · have hc : carriesData c = true := by
            simp [carriesData, hd, hp, List.isEmpty_iff, hdat]
          cases m with
          | none =>
            cases hm : d.mime_type with
            | none =>
              simp [List.foldl_cons, processChunk, hp, hd, hdat, ih, streamBuffer,
                firstSomeMime, hc, chunkPayload, chunkMime, hm]
            | some x =>
              simp [List.foldl_cons, processChunk, hp, hd, hdat, ih, streamBuffer,
                firstSomeMime, hc, chunkPayload, chunkMime, hm]
          | some x =>
            simp [List.foldl_cons, processChunk, hp, hd, hdat, ih, streamBuffer,
              firstSomeMime, hc, chunkPayload, chunkMime]
    · have hc : carriesData c = false := by simp [carriesData, hp]
      simp [List.foldl_cons, processChunk, hp, ih, streamBuffer, firstSomeMime, hc]

/-- The accumulated buffer is the in-order concatenation of inline payloads. -/
theorem process_buffer_eq (chunks : List Chunk) :
    (process_audio_stream chunks).1 = streamBuffer chunks := by
  simp [process_audio_stream, process_foldl_spec]

/-- The retained MIME type is the first non-`none` MIME among data chunks. -/
theorem process_mime_eq (chunks : List Chunk) :
    (process_audio_stream chunks).2 = firstSomeMime chunks := by
  simp [process_audio_stream, process_foldl_spec]

/-! ## Audio generation outcome (`src/audio_generator.py`, `generate_audio_from_script`)

The function accumulates the stream, returns `Path()` (modelled `""`) when
no audio was received, guesses a file extension from the retained MIME
type (`.bin` when absent or unguessable), saves the raw bytes, then either
renames the file to `data/podcast.wav` (when the extension already is
`.wav`, compared lowercased) or converts it with ffmpeg and unlinks the
temporary file.  Any exception is caught and `Path()` is returned.
`mimetypes.guess_extension`, the success of the save, and ffmpeg are
oracles; `files` lists the files left on disk by the run (a partially
written file on a failed save is not modelled). -/

structure AudioEnv where
  /-- `mimetypes.guess_extension` -/
  guessExt : String → Option String
  /-- whether `_save_binary_data` succeeds (an `OSError` propagates otherwise) -/
  saveOk : Bool
  /-- ffmpeg `pcm_s16le` conversion: `none` models a failed invocation -/
  ffmpeg : List Nat → Option (List Nat)

structure AudioOutcome where
  /-- the returned path; `""` models the sentinel `Path()` -/
  result : String
  /-- files left on disk by this run, with their contents -/
  files : List (String × List Nat)
deriving DecidableEq

def asciiLower (c : Char) : Char :=
  if 'A' ≤ c && c ≤ 'Z' then Char.ofNat (c.toNat + 32) else c

def lowerList (l : List Char) : List Char :=
  l.map asciiLower

def generate_audio_from_script (env : AudioEnv) (chunks : List Chunk) : AudioOutcome :=
  let r := process_audio_stream chunks
  let full_audio_data := r.1
  let received_mime_type := r.2
  if full_audio_data = [] then
    ⟨"", []⟩
  else
    let ext : String :=
      match received_mime_type with
      | some m =>
        match env.guessExt m with
        | some e => e
        | none => ".bin"
      | none => ".bin"
    let temp := "data/temp_raw_audio" ++ ext
    if env.saveOk = false then
      ⟨"", []⟩
    else if lowerList ext.data = ".wav".data then
      ⟨"data/podcast.wav", [("data/podcast.wav", full_audio_data)]⟩
    else
      match env.ffmpeg full_audio_data with
      | some out => ⟨"data/podcast.wav", [("data/podcast.wav", out)]⟩
      | none => ⟨"", [(temp, full_audio_data)]⟩

/-! ## Claims C4, C5, C6 -/

/-- C4 counterexample: the claim says a response with non-whitespace text
has "that text" returned; the code returns the stripped text instead, so
on `" hi "` the result is `"hi"`, not `" hi "`. -/
theorem script_text_not_returned_verbatim :
    generate_script_from_paper (some " hi ") = Except.ok "hi" ∧
      generate_script_from_paper (some " hi ") ≠ Except.ok " hi " := by
  constructor
  · rfl
  · intro h
    rw [show generate_script_from_paper (some " hi ") = Except.ok "hi" from rfl] at h
    simp at h

/-- C4 (amended): the script generator fails exactly when the model
response text is absent, empty, or whitespace-only; otherwise it returns
the response text stripped of leading and trailing whitespace, so a
whitespace-only script is never forwarded. -/
theorem script_whitespace_guard (t : Option String) :
    ((∃ e, generate_script_from_paper t = Except.error e) ↔
      (t = none ∨ ∃ s, t = some s ∧ ∀ c ∈ s.data, pyIsSpace c = true)) ∧
    (∀ s, t = some s → ¬ (∀ c ∈ s.data, pyIsSpace c = true) →
      generate_script_from_paper t = Except.ok (pyStrip s)) := by
  cases t with
  | none =>
    constructor
    · constructor
      · intro _; exact Or.inl rfl
      · intro _; exact ⟨_, rfl⟩
    · intro s hs; cases hs
  | some s =>
    have hiff : pyStrip s = "" ↔ ∀ c ∈ s.data, pyIsSpace c = true := by
      rw [show pyStrip s = ⟨pyStripList s.data⟩ from rfl]
      rw [show ("" : String) = ⟨[]⟩ from rfl]
      constructor
      · intro h
        exact (pyStripList_eq_nil_iff s.data).mp (congrArg String.data h)
      · intro h
        exact congrArg String.mk ((pyStripList_eq_nil_iff s.data).mpr h)
    by_cases h : pyStrip s = ""
    · constructor
      · constructor
        · intro _
          exact Or.inr ⟨s, rfl, hiff.mp h⟩
        · intro _
          exact ⟨"Gemini model returned an empty script",
            by simp [generate_script_from_paper, h]⟩
      · intro s' hs' hns
        cases hs'
        exact absurd (hiff.mp h) hns
    · constructor
      · constructor
        · intro ⟨e, he⟩
          simp [generate_script_from_paper, h] at he
        · rintro (hn | ⟨s', hs', hall⟩)
          · cases hn
          · cases hs'
            exact absurd (hiff.mpr hall) h
      · intro s' hs' _
        cases hs'
        simp [generate_script_from_paper, h]

/-- C4 witness: on the response `" hi "` the guard does not fire and the
stripped text is returned. -/
theorem script_whitespace_guard_witness :
    generate_script_from_paper (some " hi ") = Except.ok (pyStrip " hi ") :=
  (script_whitespace_guard (some " hi ")).2 " hi " rfl (by decide)

/-- C5: when no chunk of the stream carries inline binary audio, the audio
stage returns the sentinel empty path and writes no file. -/
theorem no_audio_empty_result (env : AudioEnv) (chunks : List Chunk)
    (h : ∀ c ∈ chunks, carriesData c = false) :
    generate_audio_from_script env chunks = ⟨"", []⟩ := by
  have hfil : chunks.filter carriesData = [] := by
    rw [List.filter_eq_nil_iff]
    intro c hc
    simp [h c hc]
  have hb : (process_audio_stream chunks).1 = [] := by
    rw [process_buffer_eq]
    simp [streamBuffer, hfil]
  unfold generate_audio_from_script
  simp [hb]

def silentEnv : AudioEnv :=
  ⟨fun _ => none, true, fun _ => none⟩

/-- C5 witness: a stream consisting of one text-only chunk produces the
empty result and no file. -/
theorem no_audio_empty_result_witness :
    generate_audio_from_script silentEnv [⟨true, none, some "ok"⟩] = ⟨"", []⟩ :=
  no_audio_empty_result silentEnv [⟨true, none, some "ok"⟩] (by decide)

def mimeCexChunks : List Chunk :=
  [⟨true, some ⟨[1], none⟩, none⟩, ⟨true, some ⟨[2], some "audio/wav"⟩, none⟩]

/-- C6 counterexample: the first data-carrying chunk has no MIME type and a
later data-carrying chunk has one; the code retains the later MIME type
`"audio/wav"`, while the claim says the retained MIME type is that of the
first data-carrying chunk, i.e. `none`. -/
theorem retained_mime_not_first_chunk :
    (process_audio_stream mimeCexChunks).2 = some "audio/wav" ∧
      firstChunkMime mimeCexChunks = none ∧
      (process_audio_stream mimeCexChunks).2 ≠ firstChunkMime mimeCexChunks := by
  refine ⟨rfl, rfl, ?_⟩
  intro h
  rw [show firstChunkMime mimeCexChunks = none from rfl] at h
  rw [show (process_audio_stream mimeCexChunks).2 = some "audio/wav" from rfl] at h
  cases h

/-- C6 (amended): the accumulated buffer is the in-order concatenation of
exactly the inline payloads of the data-carrying chunks (text-only chunks
contribute nothing), and the retained MIME type is the first non-`none`
MIME type among the data-carrying chunks (`none` if there is none). -/
theorem stream_accumulation (chunks : List Chunk) :
    (process_audio_stream chunks).1 = streamBuffer chunks ∧
      (process_audio_stream chunks).2 = firstSomeMime chunks :=
  ⟨process_buffer_eq chunks, process_mime_eq chunks⟩

/-! ## WAV container synthesis (modelled from the spec)

The repository's stored audio stage delegates container handling to
ffmpeg; the spec instead documents a WAV-header assembler fed by a
MIME-parameter parser (spec sections 3, 4.3 and 8) that is not present
under `src/`.  The two definitions below are therefore modelled from the
spec's words. -/

/-- Split a character list at every `';'` (Python `str.split(";")`). -/
def splitOnSemicolon : List Char → List (List Char)
  | [] => [[]]
  | c :: rest =>
    match splitOnSemicolon rest with
    | [] => [[c]]
    | h :: t => if c = ';' then [] :: h :: t else (c :: h) :: t

/-- Numeric value of a digit string (assuming all digits). -/
def digitsToNat (l : List Char) : Nat :=
  l.foldl (fun a c => a * 10 + (c.toNat - 48)) 0

/-- Parse a non-empty all-digit string; anything else is unparseable. -/
def parseNatDigits (l : List Char) : Option Nat :=
  if !l.isEmpty && l.all Char.isDigit then some (digitsToNat l) else none

/-- Modelled from the spec: one MIME parameter updates the accumulated
`(bits_per_sample, rate)` pair — trim whitespace; `rate=<int>` sets the
sample rate; a parameter beginning `audio/L<int>` sets bits-per-sample;
unparseable values are silently ignored. -/
def parseParam (acc : Nat × Nat) (p : List Char) : Nat × Nat :=
  let q := pyStripList p
  if "rate=".data.isPrefixOf q then
    match parseNatDigits (q.drop 5) with
    | some n => (acc.1, n)
    | none => acc
  else if "audio/L".data.isPrefixOf q then
    match parseNatDigits (q.drop 7) with
    | some n => (n, acc.2)
    | none => acc
  else
    acc

/-- Modelled from the spec: the MIME-parameter parser of the audio stage
(absent from `src/`): split on `;`, trim whitespace, apply each parameter;
defaults 16 bits, 24000 Hz. Returns `(bits_per_sample, rate)`. -/
def parse_audio_mime_type (mime : List Char) : Nat × Nat :=
  (splitOnSemicolon mime).foldl parseParam (16, 24000)

/-- Two bytes, little endian. -/
def le16 (n : Nat) : List Nat :=
  [n % 256, n / 256 % 256]

/-- Four bytes, little endian. -/
def le32 (n : Nat) : List Nat :=
  [n % 256, n / 256 % 256, n / 65536 % 256, n / 16777216 % 256]

/-- ASCII bytes of a tag. -/
def asciiBytes (l : List Char) : List Nat :=
  l.map Char.toNat

/-- Modelled from the spec: the 44-byte RIFF/WAVE/fmt/data header with
`chunk_size = 36 + data_size`, mono channel count fixed at 1,
`byte_rate = sample_rate * num_channels * bytes_per_sample` and
`block_align = num_channels * bytes_per_sample`, `bytes_per_sample`
being `bits_per_sample / 8`. -/
def wavHeader (dataSize rate bits : Nat) : List Nat :=
  let num_channels := 1
  let bytes_per_sample := bits / 8
  let block_align := num_channels * bytes_per_sample
  let byte_rate := rate * num_channels * bytes_per_sample
  let chunk_size := 36 + dataSize
  asciiBytes "RIFF".data ++ le32 chunk_size ++ asciiBytes "WAVE".data ++
    asciiBytes "fmt ".data ++ le32 16 ++ le16 1 ++ le16 num_channels ++
    le32 rate ++ le32 byte_rate ++ le16 block_align ++ le16 bits ++
    asciiBytes "data".data ++ le32 dataSize

/-- Modelled from the spec: the audio stage's final WAV output — the
synthesized header, with parameters parsed from the retained MIME type,
prepended to the accumulated PCM payload. -/
def convert_to_wav (data : List Nat) (mime : List Char) : List Nat :=
  let p := parse_audio_mime_type mime
  wavHeader data.length p.2 p.1 ++ data

/-- Little-endian decoding of the first two bytes. -/
def decodeLE16 : List Nat → Nat
  | b0 :: b1 :: _ => b0 + 256 * b1
  | _ => 0

/-- Little-endian decoding of the first four bytes. -/
def decodeLE32 : List Nat → Nat
  | b0 :: b1 :: b2 :: b3 :: _ => b0 + 256 * b1 + 65536 * b2 + 16777216 * b3
  | _ => 0

/-! ## Claims C1, C2 -/

set_option maxHeartbeats 2000000 in
/-- C1: for every accumulated PCM payload and retained MIME type, the
final WAV output is a 44-byte synthesized header followed by the payload,
with `chunk_size = 36 + N`, `byte_rate = R * 1 * (B/8)` (mono,
`num_channels = 1`), `block_align = B/8`, and total length `44 + N`
(field values read back little-endian; sizes within 32-bit range). -/
theorem wav_header_roundtrip (data : List Nat) (mime : List Char) (bits rate : Nat)
    (hparse : parse_audio_mime_type mime = (bits, rate))
    (hcs : 36 + data.length < 2 ^ 32)
    (hbr : rate * 1 * (bits / 8) < 2 ^ 32)
    (hba : bits / 8 < 2 ^ 16) :
    (convert_to_wav data mime).length = 44 + data.length ∧
      decodeLE32 ((convert_to_wav data mime).drop 4) = 36 + data.length ∧
      decodeLE32 ((convert_to_wav data mime).drop 28) = rate * 1 * (bits / 8) ∧
      decodeLE16 ((convert_to_wav data mime).drop 32) = bits / 8 ∧
      decodeLE16 ((convert_to_wav data mime).drop 22) = 1 ∧
      (convert_to_wav data mime).take 44 = wavHeader data.length rate bits ∧
      (convert_to_wav data mime).drop 44 = data := by
  have hout : convert_to_wav data mime = wavHeader data.length rate bits ++ data := by
    unfold convert_to_wav
    rw [hparse]
  rw [hout]
  have hlen : (wavHeader data.length rate bits).length = 44 := rfl
  refine ⟨?_, ?_, ?_, ?_, ?_, ?_, ?_⟩
  · rw [List.length_append, hlen]
  · have h4 : decodeLE32 ((wavHeader data.length rate bits ++ data).drop 4) =
        (36 + data.length) % 256 + 256 * ((36 + data.length) / 256 % 256) +
          65536 * ((36 + data.length) / 65536 % 256) +
          16777216 * ((36 + data.length) / 16777216 % 256) := rfl
    rw [h4]
    omega
  · have h28 : decodeLE32 ((wavHeader data.length rate bits ++ data).drop 28) =
        (rate * 1 * (bits / 8)) % 256 + 256 * ((rate * 1 * (bits / 8)) / 256 % 256) +
          65536 * ((rate * 1 * (bits / 8)) / 65536 % 256) +
          16777216 * ((rate * 1 * (bits / 8)) / 16777216 % 256) := rfl
    rw [h28]
    omega
  · have h32 : decodeLE16 ((wavHeader data.length rate bits ++ data).drop 32) =
        (1 * (bits / 8)) % 256 + 256 * ((1 * (bits / 8)) / 256 % 256) := rfl
    rw [h32]
    omega
  · rfl
  · rfl
  · rfl

/-- C1 witness: 1000 payload bytes at 16 bits / 24000 Hz give a
1044-byte output whose chunk-size field reads back `36 + 1000`. -/
theorem wav_header_roundtrip_witness :
    (convert_to_wav (List.replicate 1000 7) "audio/L16;rate=24000".data).length =
        44 + (List.replicate 1000 7).length ∧
      decodeLE32 ((convert_to_wav (List.replicate 1000 7) "audio/L16;rate=24000".data).drop 4) =
        36 + (List.replicate 1000 7).length := by
  have h := wav_header_roundtrip (List.replicate 1000 7) "audio/L16;rate=24000".data
    16 24000 rfl (by rw [List.length_replicate]; decide) (by decide) (by decide)
  exact ⟨h.1, h.2.1⟩

/-- C2: MIME parameter parsing — `"audio/L24;rate=48000"` yields
bits-per-sample 24 and rate 48000; a parameterless `"audio/wav"` yields the
defaults (16, 24000); the malformed `rate=abc` is silently ignored leaving
the default rate; whitespace around parameters is trimmed. The parser is a
total function, so it never raises. -/
theorem mime_parameter_parsing :
    parse_audio_mime_type "audio/L24;rate=48000".data = (24, 48000) ∧
      parse_audio_mime_type "audio/wav".data = (16, 24000) ∧
      parse_audio_mime_type "audio/L16;rate=abc".data = (16, 24000) ∧
      parse_audio_mime_type " audio/L24 ; rate=48000".data = (24, 48000) :=
  ⟨rfl, rfl, rfl, rfl⟩

/-! ## Paper selector (`src/paper_selector.py`)

The selection step extracts a PDF URL from the model response with
`re.search` of the pattern `http?://arxiv\.org/pdf/[\d.]+(?:v\d+)?`
(note: the `?` quantifies the final `p` of `http`, so `https` never
matches).  The download step extracts an arXiv id with `re.search` of
`arxiv\.org/pdf/(\d{4}\.\d{5}(?:v\d+)?)` and hands it to the arXiv SDK;
the SDK lookup-and-download is the oracle `lookup`. -/

/-- Match a literal at the head of the input, returning the rest. -/
def matchLit : List Char → List Char → Option (List Char)
  | [], s => some s
  | _ :: _, [] => none
  | c :: cs, x :: xs => if x = c then matchLit cs xs else none

/-- Characters matched by the class `[\d.]`. -/
def isDigitDot (c : Char) : Bool :=
  c.isDigit || c = '.'

/-- The optional `(?:v\d+)?` tail: greedy, matched only when a `v` is
followed by at least one digit. -/
def vPart (r : List Char) : List Char :=
  match r with
  | 'v' :: r5 =>
    if (r5.takeWhile Char.isDigit).isEmpty then [] else 'v' :: r5.takeWhile Char.isDigit
  | _ => []

/-- Match `http?://arxiv\.org/pdf/[\d.]+(?:v\d+)?` anchored at the head of
`s`, returning the matched text (`group(0)`).  The `?` makes the `p`
optional, so the scheme is `http://` or the degenerate `htt://`. -/
def matchPdfUrlAt (s : List Char) : Option (List Char) :=
  match matchLit "htt".data s with
  | none => none
  | some r1 =>
    match matchLit "://arxiv.org/pdf/".data (if r1.head? = some 'p' then r1.tail else r1) with
    | none => none
    | some r3 =>
      if (r3.takeWhile isDigitDot).isEmpty then none
      else
        some ("htt".data ++ (if r1.head? = some 'p' then ['p'] else []) ++
          "://arxiv.org/pdf/".data ++ r3.takeWhile isDigitDot ++
          vPart (r3.dropWhile isDigitDot))

/-- `re.search`: try the pattern at each position, leftmost match wins. -/
def pdfUrlSearch : List Char → Option (List Char)
  | [] => none
  | c :: rest =>
    match matchPdfUrlAt (c :: rest) with
    | some m => some m
    | none => pdfUrlSearch rest

/-- `select_paper_for_podcast`, response-processing part: an absent or
empty response text raises; a response without a pattern match raises;
otherwise the matched URL is returned.  The model response is the oracle
input. -/
def select_paper_for_podcast (responseText : Option String) : Except String String :=
  match responseText with
  | none => Except.error "LLM returned empty response"
  | some t =>
    if t.data = [] then
      Except.error "LLM returned empty response"
    else
      match pdfUrlSearch t.data with
      | none => Except.error "No valid PDF URL found in response"
      | some m => Except.ok ⟨m⟩

/-- Match `arxiv\.org/pdf/(\d{4}\.\d{5}(?:v\d+)?)` anchored at the head,
returning the captured id (`group(1)`). -/
def matchArxivIdAt (s : List Char) : Option (List Char) :=
  match matchLit "arxiv.org/pdf/".data s with
  | none => none
  | some r1 =>
    match r1 with
    | a :: b :: c :: d :: '.' :: e :: f :: g :: h :: i :: rest2 =>
      if a.isDigit && b.isDigit && c.isDigit && d.isDigit &&
          e.isDigit && f.isDigit && g.isDigit && h.isDigit && i.isDigit then
        some ([a, b, c, d, '.', e, f, g, h, i] ++ vPart rest2)
      else
        none
    | _ => none

/-- `re.search` for the arXiv id pattern, leftmost match. -/
def arxivIdSearch : List Char → Option (List Char)
  | [] => none
  | c :: rest =>
    match matchArxivIdAt (c :: rest) with
    | some m => some m
    | none => arxivIdSearch rest

/-- The 4-byte PDF magic number `%PDF`. -/
def pdfMagic : List Nat := [37, 80, 68, 70]

structure DownloadEnv where
  /-- the arXiv SDK: id ↦ downloaded PDF payload (`none`: no such paper) -/
  lookup : List Char → Option (List Nat)

structure DownloadOutcome where
  result : Except String Unit
  /-- files left on disk by this step, with their contents -/
  files : List (List Char × List Nat)

/-- `download_arxiv_pdf_from_url`: extract the arXiv id from the URL
(raising when impossible), look the paper up and write its payload to the
output path; a failed lookup raises.  The payload bytes are never
inspected and no written file is ever removed. -/
def download_arxiv_pdf_from_url (env : DownloadEnv) (pdf_url output_path : List Char) :
    DownloadOutcome :=
  match arxivIdSearch pdf_url with
  | none => ⟨Except.error "Could not find pdf to download", []⟩
  | some arxiv_id =>
    match env.lookup arxiv_id with
    | some bytes => ⟨Except.ok (), [(output_path, bytes)]⟩
    | none => ⟨Except.error "Failed to download paper from arXiv ID", []⟩

/-- A successful literal match decomposes the input. -/
theorem matchLit_some :
    ∀ (lit s r : List Char), matchLit lit s = some r → s = lit ++ r := by
  intro lit
  induction lit with
  | nil =>
    intro s r h
    simp [matchLit] at h
    simp [h]
  | cons c cs ih =>
    intro s r h
    cases s with
    | nil => simp [matchLit] at h
    | cons x xs =>
      by_cases hx : x = c
      · subst hx
        simp only [matchLit, if_pos rfl] at h
        simp [ih xs r h]
      · simp [matchLit, hx] at h

/-- Any successful anchored match of the PDF-URL pattern means the input
starts with `http://arxiv.org/pdf/` or with `htt://arxiv.org/pdf/`. -/
theorem matchPdfUrlAt_scheme (s m : List Char) (h : matchPdfUrlAt s = some m) :
    ("http://arxiv.org/pdf/".data <+: s) ∨ ("htt://arxiv.org/pdf/".data <+: s) := by
  unfold matchPdfUrlAt at h
  cases h1 : matchLit "htt".data s with
  | none => rw [h1] at h; cases h
  | some r1 =>
    rw [h1] at h
    dsimp only at h
    have hs : s = "htt".data ++ r1 := matchLit_some _ _ _ h1
    by_cases hp : r1.head? = some 'p'
    · rw [if_pos hp] at h
      cases h2 : matchLit "://arxiv.org/pdf/".data r1.tail with
      | none => simp only [h2] at h; cases h
      | some r3 =>
        have ht : r1.tail = "://arxiv.org/pdf/".data ++ r3 := matchLit_some _ _ _ h2
        cases r1 with
        | nil => cases hp
        | cons c rest =>
          have hc : c = 'p' := by
            simpa using hp
          subst hc
          refine Or.inl ⟨r3, ?_⟩
          rw [hs]
          simp only [List.tail_cons] at ht
          rw [ht]
          rfl
    · rw [if_neg hp] at h
      cases h2 : matchLit "://arxiv.org/pdf/".data r1 with
      | none => simp only [h2] at h; cases h
      | some r3 =>
        have ht : r1 = "://arxiv.org/pdf/".data ++ r3 := matchLit_some _ _ _ h2
        refine Or.inr ⟨r3, ?_⟩
        rw [hs, ht]
        rfl

/-- A successful `re.search` of the PDF-URL pattern means one of the two
matchable schemes occurs in the text. -/
theorem pdfUrlSearch_infix (s m : List Char) (h : pdfUrlSearch s = some m) :
    ("http://arxiv.org/pdf/".data <:+: s) ∨ ("htt://arxiv.org/pdf/".data <:+: s) := by
  induction s with
  | nil => cases h
  | cons c rest ih =>
    unfold pdfUrlSearch at h
    cases hm : matchPdfUrlAt (c :: rest) with
    | some m' =>
      exact (matchPdfUrlAt_scheme _ _ hm).imp List.IsPrefix.isInfix List.IsPrefix.isInfix
    | none =>
      rw [hm] at h
      exact (ih h).imp List.infix_cons List.infix_cons

/-! ## Claims C3, C10 -/

def cexDownloadEnv : DownloadEnv :=
  ⟨fun id => if id = "2401.12345".data then some [65, 66, 67, 68] else none⟩

/-- C3 counterexample: a download whose payload `"ABCD"` does not begin
with the PDF magic number nevertheless succeeds and the written file is
kept — the code never inspects the payload and never deletes the file,
contradicting the claimed validate-and-delete behaviour. -/
theorem download_keeps_invalid_payload :
    (download_arxiv_pdf_from_url cexDownloadEnv "http://arxiv.org/pdf/2401.12345".data
        "data/paper.pdf".data).result = Except.ok () ∧
      (download_arxiv_pdf_from_url cexDownloadEnv "http://arxiv.org/pdf/2401.12345".data
        "data/paper.pdf".data).files = [("data/paper.pdf".data, [65, 66, 67, 68])] ∧
      List.take 4 [65, 66, 67, 68] ≠ pdfMagic := by
  refine ⟨rfl, rfl, by decide⟩

/-- C3 (amended): the download step never validates the payload: whenever
an arXiv id can be extracted from the URL and the arXiv lookup yields a
payload, the file is written with that payload and the step succeeds,
regardless of its first four bytes; the step fails — writing nothing —
exactly when no id can be extracted or the lookup yields no paper. -/
theorem download_no_content_validation (env : DownloadEnv) (url out : List Char) :
    (∀ id bytes, arxivIdSearch url = some id → env.lookup id = some bytes →
        download_arxiv_pdf_from_url env url out = ⟨Except.ok (), [(out, bytes)]⟩) ∧
      (arxivIdSearch url = none →
        download_arxiv_pdf_from_url env url out =
          ⟨Except.error "Could not find pdf to download", []⟩) ∧
      (∀ id, arxivIdSearch url = some id → env.lookup id = none →
        download_arxiv_pdf_from_url env url out =
          ⟨Except.error "Failed to download paper from arXiv ID", []⟩) := by
  unfold download_arxiv_pdf_from_url
  refine ⟨?_, ?_, ?_⟩
  · intro id bytes hid hb
    simp only [hid, hb]
  · intro hid
    simp only [hid]
  · intro id hid hb
    simp only [hid, hb]

/-- C3 witness: with the lookup oracle serving payload `"ABCD"` for id
`2401.12345`, the download writes that payload and succeeds. -/
theorem download_no_content_validation_witness :
    download_arxiv_pdf_from_url cexDownloadEnv "http://arxiv.org/pdf/2401.12345".data
        "data/paper.pdf".data =
      ⟨Except.ok (), [("data/paper.pdf".data, [65, 66, 67, 68])]⟩ :=
  (download_no_content_validation cexDownloadEnv "http://arxiv.org/pdf/2401.12345".data
    "data/paper.pdf".data).1 "2401.12345".data [65, 66, 67, 68] rfl rfl

/-- C10: the PDF-URL pattern quantifies the `p` of `http`, so it matches
only `http://` (or the degenerate `htt://`) schemes; a response containing
a recognizable `https://arxiv.org/pdf/...` URL but no `http://` (or
`htt://`) arXiv PDF link makes selection fail with the no-valid-URL parse
error. -/
theorem https_only_response_fails (s : List Char)
    (hhttps : "https://arxiv.org/pdf/".data <:+: s)
    (hhttp : ¬ "http://arxiv.org/pdf/".data <:+: s)
    (hhtt : ¬ "htt://arxiv.org/pdf/".data <:+: s) :
    select_paper_for_podcast (some ⟨s⟩) =
      Except.error "No valid PDF URL found in response" := by
  have hne : s ≠ [] := by
    rintro rfl
    rw [List.infix_nil] at hhttps
    cases hhttps
  have hsearch : pdfUrlSearch s = none := by
    cases hs : pdfUrlSearch s with
    | none => rfl
    | some m =>
      rcases pdfUrlSearch_infix s m hs with h | h
      · exact absurd h hhttp
      · exact absurd h hhtt
  unfold select_paper_for_podcast
  simp [show (String.mk s).data = s from rfl, hne, hsearch]

/-- C10 witness: a response that is exactly an `https` arXiv PDF URL fails
with the parse error. -/
theorem https_only_response_fails_witness :
    select_paper_for_podcast (some ⟨"https://arxiv.org/pdf/2401.12345".data⟩) =
      Except.error "No valid PDF URL found in response" :=
  https_only_response_fails "https://arxiv.org/pdf/2401.12345".data
    (by decide) (by decide) (by decide)

/-! ## arXiv day query (`src/paper_selector.py`, `get_abstracts_for_day`)

The query string is built with `strftime("%Y%m%d")` of the target date
(zero-padded fields), the search is capped at `max_results` (default 500)
and sorted by submission date, descending.  An empty result list raises.
The arXiv client is the oracle `resultsOf`. -/

structure PDate where
  year : Nat
  month : Nat
  day : Nat

/-- Zero-pad a digit string to width `w` (as `strftime` field formatting). -/
def padZero (w : Nat) (s : List Char) : List Char :=
  List.replicate (w - s.length) '0' ++ s

/-- A natural number rendered zero-padded to width `w`. -/
def fmtNat (w n : Nat) : List Char :=
  padZero w (Nat.toDigits 10 n)

/-- `strftime("%Y%m%d")`. -/
def fmtYmd (d : PDate) : List Char :=
  fmtNat 4 d.year ++ fmtNat 2 d.month ++ fmtNat 2 d.day

/-- The 14-digit arXiv timestamp `YYYYMMDDhhmmss` of a moment on day `d`. -/
def fmtTimestamp (d : PDate) (h m s : Nat) : List Char :=
  fmtYmd d ++ fmtNat 2 h ++ fmtNat 2 m ++ fmtNat 2 s

inductive SortCriterion
  | Relevance
  | LastUpdatedDate
  | SubmittedDate
deriving DecidableEq

inductive SortOrder
  | Ascending
  | Descending
deriving DecidableEq

structure ArxivSearch where
  query : List Char
  max_results : Nat
  sort_by : SortCriterion
  sort_order : SortOrder

/-- The `arxiv.Search` constructed by `get_abstracts_for_day`. -/
def arxiv_day_search (target_date : PDate) (max_results : Nat) : ArxivSearch :=
  { query := "cat:cs.AI AND submittedDate:[".data ++ fmtYmd target_date ++
      "000000 TO ".data ++ fmtYmd target_date ++ "235959]".data
    max_results := max_results
    sort_by := SortCriterion.SubmittedDate
    sort_order := SortOrder.Descending }

/-- The default of the `max_results` parameter in the source signature. -/
def defaultMaxResults : Nat := 500

structure ArxivPaper where
  title : List Char
  authors : List (List Char)
  pdf_url : List Char
  summary : List Char

/-- The per-paper text block built by the list comprehension. -/
def formatPaperBlock (p : ArxivPaper) : List Char :=
  "\n        Title: ".data ++ p.title ++
    "\n        Authors: ".data ++ List.intercalate ", ".data p.authors ++
    "\n        PDF URL: ".data ++ p.pdf_url ++
    "\n        Abstract: ".data ++ p.summary ++
    "\n        ----------------------------------------\n        ".data

/-- `get_abstracts_for_day`: build the search, run it through the client
oracle, raise on an empty result list, otherwise format every candidate. -/
def get_abstracts_for_day (target_date : PDate)
    (resultsOf : ArxivSearch → List ArxivPaper) (max_results : Nat) :
    Except String (List (List Char)) :=
  let search := arxiv_day_search target_date max_results
  let results := resultsOf search
  if results.isEmpty then
    Except.error "No AI papers returned from Arxiv"
  else
    Except.ok (results.map formatPaperBlock)

/-! ## Claim C8 -/

/-- C8: for every target date the paper selector queries arXiv with the
category filter `cat:cs.AI` and a `submittedDate` window spanning exactly
that day, from 00:00:00 to 23:59:59, sorted by submission date descending
(newest first), capped at the default 500 results; a query returning zero
results fails with the no-candidates error instead of proceeding. -/
theorem paper_query_construction (d : PDate)
    (resultsOf : ArxivSearch → List ArxivPaper) :
    (arxiv_day_search d defaultMaxResults).query =
        "cat:cs.AI AND submittedDate:[".data ++ fmtTimestamp d 0 0 0 ++
          " TO ".data ++ fmtTimestamp d 23 59 59 ++ "]".data ∧
      (arxiv_day_search d defaultMaxResults).max_results = 500 ∧
      (arxiv_day_search d defaultMaxResults).sort_by = SortCriterion.SubmittedDate ∧
      (arxiv_day_search d defaultMaxResults).sort_order = SortOrder.Descending ∧
      (resultsOf (arxiv_day_search d defaultMaxResults) = [] →
        get_abstracts_for_day d resultsOf defaultMaxResults =
          Except.error "No AI papers returned from Arxiv") := by
  have h1 : fmtTimestamp d 0 0 0 = fmtYmd d ++ "000000".data := by
    unfold fmtTimestamp
    simp only [List.append_assoc]
    exact congrArg (fmtYmd d ++ .) rfl
  have h2 : fmtTimestamp d 23 59 59 = fmtYmd d ++ "235959".data := by
    unfold fmtTimestamp
    simp only [List.append_assoc]
    exact congrArg (fmtYmd d ++ .) rfl
  refine ⟨?_, rfl, rfl, rfl, ?_⟩
  · rw [h1, h2]
    simp only [arxiv_day_search, List.append_assoc]
    rfl
  · intro h
    simp [get_abstracts_for_day, h]

/-- C8 witness: on 2024-01-02 with a client returning no results, the
stage fails with the no-candidates error. -/
theorem paper_query_construction_witness :
    get_abstracts_for_day ⟨2024, 1, 2⟩ (fun _ => []) defaultMaxResults =
      Except.error "No AI papers returned from Arxiv" :=
  (paper_query_construction ⟨2024, 1, 2⟩ (fun _ => [])).2.2.2.2 rfl

/-! ## YouTube upload title (`src/youtube_uploader.py`)

`upload_video_to_youtube` strips the paper title, truncates it to 80
characters plus `"..."` when its length is at least `max_chars = 85`,
appends `" (AI Podcast)"` and strips the result. -/

def titleSuffix : List Char := " (AI Podcast)".data

/-- The title construction of `upload_video_to_youtube`. -/
def buildVideoTitle (paperTitle : List Char) : List Char :=
  let paper_title := pyStripList paperTitle
  let truncated :=
    if 85 ≤ paper_title.length then paper_title.take 80 ++ "...".data else paper_title
  pyStripList (truncated ++ titleSuffix)

/-- Stripping is the identity on a list with a non-space head whose
appended suffix ends in a non-space character. -/
theorem stripRight_append_keep (y suf : List Char) (c : Char) (r : List Char)
    (hrev : suf.reverse = c :: r) (hc : pyIsSpace c = false) :
    stripRight (y ++ suf) = y ++ suf := by
  unfold stripRight
  rw [List.reverse_append, hrev, List.cons_append,
    List.dropWhile_cons_of_neg (by simp [hc]), ← List.cons_append, ← hrev,
    ← List.reverse_append, List.reverse_reverse]

/-- Full strip is the identity on `x ++ titleSuffix` when `x` has a
non-whitespace head. -/
theorem pyStripList_append_suffix (x : List Char) (c : Char) (xs : List Char)
    (hx : x = c :: xs) (hc : pyIsSpace c = false) :
    pyStripList (x ++ titleSuffix) = x ++ titleSuffix := by
  have hrev : titleSuffix.reverse = ')' :: "tsacdoP IA( ".data := rfl
  have h1 : stripRight (x ++ titleSuffix) = x ++ titleSuffix :=
    stripRight_append_keep x titleSuffix ')' "tsacdoP IA( ".data hrev (by decide)
  show stripLeft (stripRight (x ++ titleSuffix)) = x ++ titleSuffix
  rw [h1, hx, List.cons_append]
  exact List.dropWhile_cons_of_neg (by simp [hc])

/-- The head of a non-empty stripped list is not whitespace. -/
theorem pyStripList_head_not_space (l : List Char) (c : Char) (cs : List Char)
    (h : pyStripList l = c :: cs) : pyIsSpace c = false :=
  dropWhile_head_false pyIsSpace (stripRight l) c cs h

/-- Long stripped titles are truncated to 80 characters plus the ellipsis
before the suffix. -/
theorem buildVideoTitle_long (title : List Char)
    (h : 85 ≤ (pyStripList title).length) :
    buildVideoTitle title = (pyStripList title).take 80 ++ "...".data ++ titleSuffix := by
  cases hs : pyStripList title with
  | nil => rw [hs] at h; simp at h
  | cons c cs =>
    have hc : pyIsSpace c = false := pyStripList_head_not_space title c cs hs
    simp only [buildVideoTitle]
    rw [if_pos h, hs]
    exact pyStripList_append_suffix _ c (List.take 79 cs ++ "...".data) rfl hc

/-- Short non-empty stripped titles pass through unmodified before the
suffix. -/
theorem buildVideoTitle_short (title : List Char)
    (h : (pyStripList title).length < 85) (hne : pyStripList title ≠ []) :
    buildVideoTitle title = pyStripList title ++ titleSuffix := by
  rcases List.exists_cons_of_ne_nil hne with ⟨c, cs, hs⟩
  have hc : pyIsSpace c = false := pyStripList_head_not_space title c cs hs
  simp only [buildVideoTitle]
  rw [if_neg (by omega)]
  exact pyStripList_append_suffix _ c cs hs hc

/-! ## Claim C7 -/

/-- C7: a paper title whose stripped length reaches the budget of 85 is
replaced by its first 80 characters plus the 3-character ellipsis before
the fixed suffix; a stripped length-100 title yields a video title of at
most 85 plus the suffix length; a non-empty title shorter than the budget
is used unmodified before the suffix. -/
theorem upload_title_truncation (title : List Char) :
    (85 ≤ (pyStripList title).length →
      buildVideoTitle title = (pyStripList title).take 80 ++ "...".data ++ titleSuffix) ∧
      ((pyStripList title).length < 85 → pyStripList title ≠ [] →
        buildVideoTitle title = pyStripList title ++ titleSuffix) ∧
      ((pyStripList title).length = 100 →
        (buildVideoTitle title).length ≤ 85 + titleSuffix.length) := by
  refine ⟨buildVideoTitle_long title, buildVideoTitle_short title, ?_⟩
  intro h100
  rw [buildVideoTitle_long title (by omega)]
  simp only [List.append_assoc, List.length_append, List.length_take, h100]
  norm_num [titleSuffix]

/-- C7 witness: a 100-character title is truncated; the short title
`"Short"` is kept unmodified before the suffix. -/
theorem upload_title_truncation_witness :
    buildVideoTitle (List.replicate 100 'a') =
        (pyStripList (List.replicate 100 'a')).take 80 ++ "...".data ++ titleSuffix ∧
      buildVideoTitle "Short".data = pyStripList "Short".data ++ titleSuffix ∧
      (buildVideoTitle (List.replicate 100 'a')).length ≤ 85 + titleSuffix.length := by
  have h := upload_title_truncation (List.replicate 100 'a')
  have h2 := upload_title_truncation "Short".data
  exact ⟨h.1 (by decide), h2.2.1 (by decide) (by decide), h.2.2 (by decide)⟩

/-! ## Top-level pipeline (`src/main.py`, `podcast_generation_pipeline`)

The pipeline checks the background image, then runs the five stages in
order inside one try block; each stage call may raise (caught by the
final handler, which exits 1) and each artifact check failure calls
`sys.exit(1)` directly (a `SystemExit` is not caught by
`except Exception`).  Stage behaviour and artifact existence are oracle
inputs; the outcome records the exit code (0 for success) and which
stages were invoked. -/

structure PipelineEnv where
  /-- `Path("assets", "background.png").exists()` -/
  background_exists : Bool
  /-- `find_and_download_paper` raises -/
  select_raises : Bool
  /-- the returned paper is truthy and `paper_path.exists()` -/
  paper_ok : Bool
  /-- `generate_script_from_paper` raises -/
  script_raises : Bool
  /-- the script returned when the stage does not raise -/
  script_text : String
  /-- the audio-stage call raises -/
  audio_raises : Bool
  /-- `audio_wav_path.exists()` after the audio stage -/
  wav_exists : Bool
  /-- `compose_final_podcast_video` raises -/
  compose_raises : Bool
  /-- `upload_video_to_youtube` raises -/
  upload_raises : Bool

inductive Stage
  | select
  | script
  | audio
  | compose
  | upload
deriving DecidableEq

structure RunOutcome where
  exit_code : Nat
  stages_run : List Stage
deriving DecidableEq

/-- The order in which `main.py` invokes the stages. -/
def stageOrder : List Stage :=
  [Stage.select, Stage.script, Stage.audio, Stage.compose, Stage.upload]

def podcast_generation_pipeline (env : PipelineEnv) : RunOutcome :=
  if !env.background_exists then ⟨1, []⟩
  else if env.select_raises then ⟨1, [Stage.select]⟩
  else if !env.paper_ok then ⟨1, [Stage.select]⟩
  else if env.script_raises then ⟨1, [Stage.select, Stage.script]⟩
  else if env.script_text = "" then ⟨1, [Stage.select, Stage.script]⟩
  else if env.audio_raises then ⟨1, [Stage.select, Stage.script, Stage.audio]⟩
  else if !env.wav_exists then ⟨1, [Stage.select, Stage.script, Stage.audio]⟩
  else if env.compose_raises then
    ⟨1, [Stage.select, Stage.script, Stage.audio, Stage.compose]⟩
  else if env.upload_raises then ⟨1, stageOrder⟩
  else ⟨0, stageOrder⟩

/-- Some stage raised or produced an empty or missing artifact. -/
def anyStageFailure (env : PipelineEnv) : Prop :=
  env.background_exists = false ∨ env.select_raises = true ∨ env.paper_ok = false ∨
    env.script_raises = true ∨ env.script_text = "" ∨ env.audio_raises = true ∨
    env.wav_exists = false ∨ env.compose_raises = true ∨ env.upload_raises = true

instance anyStageFailureDecidable (env : PipelineEnv) : Decidable (anyStageFailure env) := by
  unfold anyStageFailure
  infer_instance

/-! ## Claim C9 -/

/-- C9: the pipeline exits with code 1 exactly when some stage raises or
some artifact is empty or missing, and with 0 otherwise; the invoked
stages always form a prefix of the order select, script, audio, compose,
upload; a successful run invokes all five; and a stage is invoked only
when everything before it succeeded, so no stage runs after a failure. -/
theorem pipeline_fail_fast (env : PipelineEnv) :
    (podcast_generation_pipeline env).exit_code = (if anyStageFailure env then 1 else 0) ∧
      (podcast_generation_pipeline env).stages_run <+: stageOrder ∧
      ((podcast_generation_pipeline env).exit_code = 0 →
        (podcast_generation_pipeline env).stages_run = stageOrder) ∧
      (Stage.script ∈ (podcast_generation_pipeline env).stages_run →
        env.background_exists = true ∧ env.select_raises = false ∧ env.paper_ok = true) ∧
      (Stage.audio ∈ (podcast_generation_pipeline env).stages_run →
        env.background_exists = true ∧ env.select_raises = false ∧ env.paper_ok = true ∧
          env.script_raises = false ∧ env.script_text ≠ "") ∧
      (Stage.compose ∈ (podcast_generation_pipeline env).stages_run →
        env.background_exists = true ∧ env.select_raises = false ∧ env.paper_ok = true ∧
          env.script_raises = false ∧ env.script_text ≠ "" ∧ env.audio_raises = false ∧
          env.wav_exists = true) ∧
      (Stage.upload ∈ (podcast_generation_pipeline env).stages_run →
        env.background_exists = true ∧ env.select_raises = false ∧ env.paper_ok = true ∧
          env.script_raises = false ∧ env.script_text ≠ "" ∧ env.audio_raises = false ∧
          env.wav_exists = true ∧ env.compose_raises = false) := by
  unfold podcast_generation_pipeline
  split_ifs with h1 h2 h3 h4 h5 h6 h7 h8 h9 <;>
    simp_all [anyStageFailure, stageOrder]

/-- An environment in which every stage succeeds. -/
def goodEnv : PipelineEnv :=
  ⟨true, false, true, false, "Speaker 1: Hello.", false, true, false, false⟩

/-- C9 witness: in the all-good environment the pipeline runs all five
stages, and the upload stage runs only because everything before it
succeeded. -/
theorem pipeline_fail_fast_witness :
    (podcast_generation_pipeline goodEnv).stages_run = stageOrder ∧
      (goodEnv.background_exists = true ∧ goodEnv.select_raises = false ∧
        goodEnv.paper_ok = true ∧ goodEnv.script_raises = false ∧
        goodEnv.script_text ≠ "" ∧ goodEnv.audio_raises = false ∧
        goodEnv.wav_exists = true ∧ goodEnv.compose_raises = false) := by
  have h := pipeline_fail_fast goodEnv
  exact ⟨h.2.2.1 (by decide), h.2.2.2.2.2.2 (by decide)⟩

end DailyPapers
